import Mathlib

/-!
Verification of the `accinfo` credential vault (Rust sources under `src/`).

The development shallowly embeds the core of the program:

* `src/src/aidb.rs` — the encrypted database codec (`encrypt_database`,
  `load_database`, `check_password`, `md5_check_text`, the AES-CTR cipher
  wrapper and the in-memory cache);
* `src/src/apis/authentication.rs` — the session table, rate limiter and
  the authentication middleware (`session_id`, `check_session`,
  `check_limit`, `get_session_id`, `require_authentication`, `handle`);
* `src/src/apis/service.rs` — the `login` and `logout` handlers.

Machine bytes are modelled as `Nat` values (`u8` values are `< 256` by
type, and every byte-extraction in the source is embedded as the exact
`/ 2^k % 256` arithmetic it performs).  External library collaborators
(the `md5` digest, the `aes`/`ctr` keystream and the `serde_json` codec)
are modelled as deterministic executable functions with the interface
contracts the code relies on; each such model is marked in its doc
comment.  Stateful code is embedded as explicit state passing.
-/

namespace Accinfo

/-- The fixed IV constant of `src/src/aidb.rs` (line 9). -/
def ivConst : String := "The great rejuvenation of the Chinese nation"

/-- Base used by the idealized digest below: `2^21`, strictly larger than
every `Char.toNat` value (`< 0x110000`), so that characters are single
digits of a base-`2097152` numeral. -/
def digitBase : Nat := 2097152

/-- Injective numeral encoding of a character list (little-endian digits
`c.toNat + 1` in base `digitBase`).  This is the executable core of the
idealized digest modelling the external `md5` crate. -/
def strNat : List Char → Nat
  | [] => 0
  | c :: cs => (c.toNat + 1) + digitBase * strNat cs

/-- Model of the external `md5` crate's digest of `password || IV`, as
computed by `md5_check_text` (src/src/aidb.rs lines 146-151).  The real
MD5 digest is an external collaborator; it is idealized here as a
collision-free 16-entry digest so that distinct inputs have distinct
check values, which is the contract the codec relies on. -/
def md5CheckText (password : String) : List Nat :=
  strNat (password.data ++ ivConst.data) :: List.replicate 15 0

/-- Model of the external AES-128-CTR keystream produced by `MyAes::new`
(src/src/aidb.rs lines 34-48): key = md5(password), iv = md5(IV). The
codec only relies on the keystream being a deterministic function of the
password, so the byte values are an arbitrary deterministic model. -/
def ksByte (password : String) (i : Nat) : Nat :=
  (strNat password.data + i) % 256

/-- XOR a keystream into a buffer starting at stream offset `i`
(`apply_keystream`, src/src/aidb.rs line 46). -/
def xorKs (ks : Nat → Nat) (i : Nat) : List Nat → List Nat
  | [] => []
  | b :: bs => (b ^^^ ks i) :: xorKs ks (i + 1) bs

/-- `aes_encrypt` / `aes_decrypt` (src/src/aidb.rs lines 136-144): both
call `apply_keystream`, an involutive XOR with the password-derived
keystream. -/
def aesApply (password : String) (data : List Nat) : List Nat :=
  xorKs (ksByte password) 0 data

/-- `Record` (src/src/aidb.rs lines 50-59): six string fields. -/
structure Record where
  id : String
  title : String
  user : String
  pass : String
  url : String
  notes : String
deriving DecidableEq

/-- Big-endian 4-byte encoding of an integer, exactly the byte
construction of `encrypt_database` (src/src/aidb.rs lines 172-177):
`(n >> 24) & 0xff, (n >> 16) & 0xff, (n >> 8) & 0xff, n & 0xff`. -/
def serNat4 (n : Nat) : List Nat :=
  [n / 2 ^ 24 % 256, n / 2 ^ 16 % 256, n / 2 ^ 8 % 256, n % 256]

/-- Big-endian recombination of 4 bytes, exactly the expression
`(b4 << 24) | (b5 << 16) | (b6 << 8) | b7` of `load_database`
(src/src/aidb.rs line 209) evaluated on `u8` values. -/
def readNat4 (a b c d : Nat) : Nat :=
  ((a * 256 + b) * 256 + c) * 256 + d

/-- Model of the external `serde_json` serialization of one string:
a 4-byte length then each character as 4 bytes. -/
def serString (s : String) : List Nat :=
  serNat4 s.data.length ++ (s.data.map fun c => serNat4 c.toNat).flatten

/-- Model of the external `serde_json` serialization of one record. -/
def serRecord (r : Record) : List Nat :=
  serString r.id ++ serString r.title ++ serString r.user ++
  serString r.pass ++ serString r.url ++ serString r.notes

/-- Model of the external `serde_json` serialization of a record array
(`serde_json::to_vec`, src/src/aidb.rs line 168): a 4-byte count then the
records. -/
def serRecords (rs : List Record) : List Nat :=
  serNat4 rs.length ++ (rs.map serRecord).flatten

/-- Read 4 bytes of the serialization. -/
def parseNat4 : List Nat → Option (Nat × List Nat)
  | a :: b :: c :: d :: rest => some (readNat4 a b c d, rest)
  | _ => none

/-- Read `n` characters of the serialization. -/
def parseChars : Nat → List Nat → Option (List Char × List Nat)
  | 0, bs => some ([], bs)
  | n + 1, bs =>
    match parseNat4 bs with
    | none => none
    | some (v, bs1) =>
      match parseChars n bs1 with
      | none => none
      | some (cs, bs2) => some (Char.ofNat v :: cs, bs2)

/-- Read one string of the serialization. -/
def parseString (bs : List Nat) : Option (String × List Nat) :=
  match parseNat4 bs with
  | none => none
  | some (n, bs1) =>
    match parseChars n bs1 with
    | none => none
    | some (cs, bs2) => some (String.mk cs, bs2)

/-- Read one record of the serialization. -/
def parseRecord (bs : List Nat) : Option (Record × List Nat) :=
  match parseString bs with
  | none => none
  | some (id, b1) =>
  match parseString b1 with
  | none => none
  | some (title, b2) =>
  match parseString b2 with
  | none => none
  | some (user, b3) =>
  match parseString b3 with
  | none => none
  | some (pass, b4) =>
  match parseString b4 with
  | none => none
  | some (url, b5) =>
  match parseString b5 with
  | none => none
  | some (notes, b6) => some (⟨id, title, user, pass, url, notes⟩, b6)

/-- Read `n` records of the serialization. -/
def parseRecsLoop : Nat → List Nat → Option (List Record × List Nat)
  | 0, bs => some ([], bs)
  | n + 1, bs =>
    match parseRecord bs with
    | none => none
    | some (r, bs1) =>
      match parseRecsLoop n bs1 with
      | none => none
      | some (rs, bs2) => some (r :: rs, bs2)

/-- Model of the external `serde_json` parse of a full record array
(`serde_json::from_slice`, src/src/aidb.rs line 220): the whole input
must be consumed. -/
def parseRecords (bs : List Nat) : Option (List Record) :=
  match parseNat4 bs with
  | none => none
  | some (n, bs1) =>
    match parseRecsLoop n bs1 with
    | none => none
    | some (rs, rest) => if rest = [] then some rs else none

/-- `MAGIC = b"aidb"` (src/src/aidb.rs line 153). -/
def MAGIC : List Nat := [97, 105, 100, 98]

/-- The length field of a database buffer, read from bytes 4..8
(src/src/aidb.rs line 209). -/
def lenField (buf : List Nat) : Nat :=
  readNat4 (buf.getD 4 0) (buf.getD 5 0) (buf.getD 6 0) (buf.getD 7 0)

/-- The codec part of `encrypt_database` (src/src/aidb.rs lines 163-189),
from `serde_json::to_vec(&recs)` on: serialize, encrypt in place, then
write magic, big-endian ciphertext length, check value, ciphertext.
(Reading the KeePass XML input is input acquisition, not the codec.) -/
def encodeDatabase (recs : List Record) (password : String) : List Nat :=
  let ct := aesApply password (serRecords recs)
  MAGIC ++ serNat4 ct.length ++ md5CheckText password ++ ct

/-- Error classes of the decode path, one per distinct `anyhow::bail!`
message of `load_database` (src/src/aidb.rs lines 202-222):
`TooSmall` = "database size too small", `BadFormat` = "database is not
aidb format", `SizeMismatch` = "database size format error",
`WrongPassword` = "password error", `CorruptPayload` = the propagated
`serde_json::from_slice` parse error. -/
inductive DbError where
  | TooSmall
  | BadFormat
  | SizeMismatch
  | WrongPassword
  | CorruptPayload
deriving DecidableEq

/-- The distinct diagnostic message of each decode error class, as the
`anyhow::bail!` literals spell them. -/
def dbErrMsg : DbError → String
  | .TooSmall => "database size too small"
  | .BadFormat => "database is not aidb format"
  | .SizeMismatch => "database size format error"
  | .WrongPassword => "password error"
  | .CorruptPayload => "corrupt payload"

/-- The cold (cache-miss) decode path of `load_database`
(src/src/aidb.rs lines 202-222): length check, magic check, length-field
check, password check value check, then decrypt and parse. -/
def decodeDatabase (buf : List Nat) (password : String) :
    Except DbError (List Record) :=
  if buf.length < 24 then .error .TooSmall
  else if buf.take 4 ≠ MAGIC then .error .BadFormat
  else if lenField buf ≠ buf.length - 24 then .error .SizeMismatch
  else if md5CheckText password ≠ (buf.drop 8).take 16 then .error .WrongPassword
  else
    match parseRecords (aesApply password (buf.drop 24)) with
    | some rs => .ok rs
    | none => .error .CorruptPayload

/-- `check_password` (src/src/aidb.rs lines 239-263): the same structural
checks on the first 24 bytes, then `Ok` of the check-value comparison. -/
def checkPasswordFile (fileBytes : List Nat) (password : String) :
    Except DbError Bool :=
  if fileBytes.length < 24 then .error .TooSmall
  else if fileBytes.take 4 ≠ MAGIC then .error .BadFormat
  else if lenField fileBytes ≠ fileBytes.length - 24 then .error .SizeMismatch
  else .ok (decide (md5CheckText password = (fileBytes.drop 8).take 16))

/-- `CacheRecord` (src/src/aidb.rs lines 17-20): cached record set plus
its last-access instant (modelled as a `Nat` timestamp). -/
structure CacheRecord where
  data : List Record
  time : Nat
deriving DecidableEq

/-- Load errors: an I/O failure of `std::fs::read` or a codec error. -/
inductive LoadError where
  | ioError
  | db (e : DbError)
deriving DecidableEq

/-- `load_database` (src/src/aidb.rs lines 195-229) with the global cache
`G_RECS` and the clock passed explicitly, and the file system passed as
the optional content of the database file (`none` = `std::fs::read`
fails).  Warm cache: refresh the timestamp and return the cached data
without touching file or password.  Cold cache: read, decode, and only
on success populate the cache. -/
def loadDatabase (cache : Option CacheRecord) (now : Nat)
    (file : Option (List Nat)) (password : String) :
    Except LoadError (List Record) × Option CacheRecord :=
  match cache with
  | some c => (.ok c.data, some ⟨c.data, now⟩)
  | none =>
    match file with
    | none => (.error .ioError, none)
    | some buf =>
      match decodeDatabase buf password with
      | .error e => (.error (.db e), none)
      | .ok rs => (.ok rs, some ⟨rs, now⟩)

/-- `SessionItem` (src/src/apis/authentication.rs lines 11-14). -/
structure SessionItem where
  id : Nat
  exp : Nat
deriving DecidableEq

/-- `check_session` (src/src/apis/authentication.rs lines 39-49): scan the
session table; on the first item with the given id that is not expired,
slide its expiry to `now + SESS_EXP_SECS` and answer `true`; otherwise
answer `false` with the table unchanged.  `sessExp` stands for the
`crate::SESS_EXP_SECS` constant. -/
def checkSession (id now sessExp : Nat) :
    List SessionItem → Bool × List SessionItem
  | [] => (false, [])
  | item :: rest =>
    if item.id = id ∧ now < item.exp then
      (true, ⟨item.id, now + sessExp⟩ :: rest)
    else
      let r := checkSession id now sessExp rest
      (r.1, item :: r.2)

/-- The collision scan of `session_id` (src/src/apis/authentication.rs
lines 64-77), translated with its actual control flow: `continue` inside
the `for` loop advances to the NEXT item, so after regenerating the id
the scan resumes with the remaining items only and the outer `loop` runs
exactly once.  `rng` models consecutive calls of `rand::random::<u64>()`
(`rng k` is the value of call number `k`); `k` is the index of the next
unused random value. -/
def sessionIdScan (rng : Nat → Nat) :
    List SessionItem → Nat → Nat → Nat → Except String Nat
  | [], id, _, _ => .ok id
  | item :: rest, id, count, k =>
    if item.id = id then
      if 10000 < count then
        .error "generator random session id has reached the maximum number of attempts"
      else
        sessionIdScan rng rest (rng k) (count + 1) (k + 1)
    else
      sessionIdScan rng rest id count k

/-- Lowercase hexadecimal digit of a nibble value. -/
def hexDigitChar (n : Nat) : Char :=
  if n < 10 then Char.ofNat (48 + n) else Char.ofNat (87 + n)

/-- `format!("{:016x}", id)` (src/src/apis/authentication.rs line 81):
the id as a fixed-width 16-digit lowercase hexadecimal string. -/
def toHex16 (n : Nat) : String :=
  String.mk ((List.range 16).map fun i => hexDigitChar (n / 16 ^ (15 - i) % 16))

/-- `session_id` (src/src/apis/authentication.rs lines 60-82): draw a
random id, run the (broken) collision scan, push the new session with
expiry `now + SESS_EXP_SECS`, and return the formatted token. -/
def sessionId (rng : Nat → Nat) (now sessExp : Nat)
    (sessions : List SessionItem) :
    Except String (String × List SessionItem) :=
  match sessionIdScan rng sessions (rng 0) 0 1 with
  | .error e => .error e
  | .ok id => .ok (toHex16 id, sessions ++ [⟨id, now + sessExp⟩])

/-- Modelled from the spec: `Authentication::remove_session_id` is called
by `logout` (src/src/apis/service.rs line 79) but its definition is not
present under `src/`.  The spec says: "remove(token): delete the entry
unconditionally (used by logout); removing an absent token is a no-op",
so it is modelled as deleting every session whose id equals the token's
id. -/
def removeSessionId (id : Nat) (sessions : List SessionItem) :
    List SessionItem :=
  sessions.filter fun item => item.id != id

/-- `RateWindow` state: the `STATIS_TIME` static and the per-IP counter
table `CURRENT_LIMITINGS` (src/src/apis/authentication.rs lines 16-24),
with the counter table as a total function defaulting to 0 (mirroring
`entry(ip).or_insert(0)`). -/
structure LimitState where
  statisTime : Nat
  counts : Nat → Nat

/-- `check_limit` (src/src/apis/authentication.rs lines 84-104): if `now`
(the epoch SECOND, not a minute index) exceeds the stored `STATIS_TIME`,
store `now` and clear every counter; then increment this IP's counter and
answer `counter <= MAX_CURRENT_LIMITING` (3). -/
def checkLimit (now : Nat) (st : LimitState) (ip : Nat) : Bool × LimitState :=
  let st1 := if st.statisTime < now then ⟨now, fun _ => 0⟩ else st
  let c := st1.counts ip + 1
  (c ≤ 3, ⟨st1.statisTime, fun k => if k = ip then c else st1.counts k⟩)

/-- `require_authentication` (src/src/apis/authentication.rs lines 51-53):
paths under `/api/` except `/api/ping` and `/api/login`. -/
def requireAuthentication (path : String) : Bool :=
  "/api/".data.isPrefixOf path.data && path != "/api/ping" && path != "/api/login"

/-- Value of a hexadecimal digit character, else `none`. -/
def hexDigitVal (c : Char) : Option Nat :=
  if 48 ≤ c.toNat ∧ c.toNat ≤ 57 then some (c.toNat - 48)
  else if 97 ≤ c.toNat ∧ c.toNat ≤ 102 then some (c.toNat - 87)
  else if 65 ≤ c.toNat ∧ c.toNat ≤ 70 then some (c.toNat - 55)
  else none

/-- Accumulate hexadecimal digits. -/
def parseHexNat : List Char → Nat → Option Nat
  | [], acc => some acc
  | c :: cs, acc =>
    match hexDigitVal c with
    | some v => parseHexNat cs (acc * 16 + v)
    | none => none

/-- Model of `u64::from_str_radix(s, 16)` (used at
src/src/apis/authentication.rs line 110): an optional leading sign, then
a non-empty run of hexadecimal digits; any other character, an empty
digit run, a value `≥ 2^64`, or a negative sign with a non-zero value is
an error. -/
def fromStrRadix16U64 (l : List Char) : Option Nat :=
  let sd : Bool × List Char :=
    match l with
    | '+' :: rest => (false, rest)
    | '-' :: rest => (true, rest)
    | _ => (false, l)
  if sd.2 = [] then none
  else
    match parseHexNat sd.2 0 with
    | none => none
    | some v =>
      if v < 2 ^ 64 then
        if sd.1 then (if v = 0 then some 0 else none) else some v
      else none

/-- `get_session_id` (src/src/apis/authentication.rs lines 106-117): the
`Authorization` header value must start with `"session "`, and the rest
must parse as a hexadecimal `u64`.  The header is `none` when absent or
not valid ASCII (`to_str` failure). -/
def getSessionId (auth : Option String) : Option Nat :=
  match auth with
  | none => none
  | some a =>
    if "session ".data.isPrefixOf a.data then
      fromStrRadix16U64 (a.data.drop 8)
    else none

/-- Outcome of the `Authentication` middleware: either the request is
handed to `next.run` (the wrapped handler) or the middleware itself
answers the generic `401 UNAUTHORIZED`. -/
inductive HandleResult where
  | passthrough
  | unauthorized
deriving DecidableEq

/-- `Authentication::handle` (src/src/apis/authentication.rs lines
136-155): paths that do not require authentication pass straight
through; otherwise extract the token, consult the rate limiter, then the
session table; every failure collapses to the same 401. -/
def handleModel (path : String) (auth : Option String) (ip : Nat)
    (now sessExp : Nat) (lim : LimitState) (sessions : List SessionItem) :
    HandleResult × LimitState × List SessionItem :=
  if requireAuthentication path = false then (.passthrough, lim, sessions)
  else
    match getSessionId auth with
    | none => (.unauthorized, lim, sessions)
    | some id =>
      let r := checkLimit now lim ip
      if r.1 then
        let s := checkSession id now sessExp sessions
        if s.1 then (.passthrough, r.2, s.2) else (.unauthorized, r.2, s.2)
      else (.unauthorized, r.2, sessions)

/-- Outcome of the `login` handler: a failure response with its message,
or a success response carrying the session token (the `expire` and
`refreshTime` fields of the success payload and the `PASSWORD` global
update are not modelled; no claim concerns them). -/
inductive LoginRes where
  | fail (msg : String)
  | success (token : String)
deriving DecidableEq

/-- `login` (src/src/apis/service.rs lines 36-75): check the database
file exists, that `user` equals the database file stem, and
`check_password`; each failure has its own `fail_if!` message, and an
error from `check_password` is propagated with that error's message.  On
success a session is created.  `dbFile` is the optional content of the
database file (`none` = missing), `dbStem` its file stem. -/
def loginModel (rng : Nat → Nat) (now sessExp : Nat)
    (sessions : List SessionItem) (dbFile : Option (List Nat))
    (dbStem : String) (user pass : String) : LoginRes × List SessionItem :=
  match dbFile with
  | none => (.fail "数据库丢失", sessions)
  | some bytes =>
    if user ≠ dbStem then (.fail "用户名错误", sessions)
    else
      match checkPasswordFile bytes pass with
      | .error e => (.fail (dbErrMsg e), sessions)
      | .ok false => (.fail "密码错误", sessions)
      | .ok true =>
        match sessionId rng now sessExp sessions with
        | .error e => (.fail e, sessions)
        | .ok (tok, sess) => (.success tok, sess)

/-! ## Helper lemmas -/

theorem parseNat4_serNat4 (n : Nat) (rest : List Nat) :
    parseNat4 (serNat4 n ++ rest) = some (n % 2 ^ 32, rest) := by
  simp only [serNat4, List.cons_append, List.nil_append, parseNat4, readNat4,
    Option.some.injEq, Prod.mk.injEq]
  exact ⟨by omega, trivial⟩

theorem char_toNat_lt (c : Char) : c.toNat < 1114112 := by
  have h := c.valid
  rcases h with h | ⟨h1, h2⟩
  · exact Nat.lt_trans h (by norm_num)
  · exact h2

theorem strNat_inj : ∀ l1 l2 : List Char, strNat l1 = strNat l2 → l1 = l2 := by
  intro l1
  induction l1 with
  | nil =>
    intro l2 h
    cases l2 with
    | nil => rfl
    | cons c cs => simp only [strNat, digitBase] at h; omega
  | cons c cs ih =>
    intro l2 h
    cases l2 with
    | nil => simp only [strNat, digitBase] at h; omega
    | cons d ds =>
      simp only [strNat, digitBase] at h
      have hc := char_toNat_lt c
      have hd := char_toNat_lt d
      have h1 : c.toNat = d.toNat ∧ strNat cs = strNat ds := by
        refine ⟨by omega, by omega⟩
      have h2 := ih ds h1.2
      have hcd : c = d := by
        have h3 := congrArg Char.ofNat h1.1
        rwa [Char.ofNat_toNat, Char.ofNat_toNat] at h3
      rw [hcd, h2]

theorem md5CheckText_inj (p q : String) (h : md5CheckText p = md5CheckText q) :
    p = q := by
  simp only [md5CheckText, List.cons.injEq] at h
  have h1 := strNat_inj _ _ h.1
  have h2 := List.append_cancel_right h1
  cases p
  cases q
  simp only [String.data] at h2
  rw [h2]

theorem xorKs_xorKs (ks : Nat → Nat) : ∀ (i : Nat) (l : List Nat),
    xorKs ks i (xorKs ks i l) = l := by
  intro i l
  induction l generalizing i with
  | nil => rfl
  | cons b bs ih =>
    simp only [xorKs]
    rw [Nat.xor_assoc, Nat.xor_self, Nat.xor_zero]
    rw [ih]

theorem length_xorKs (ks : Nat → Nat) : ∀ (i : Nat) (l : List Nat),
    (xorKs ks i l).length = l.length := by
  intro i l
  induction l generalizing i with
  | nil => rfl
  | cons b bs ih => simp [xorKs, ih]



theorem parseChars_ser : ∀ (cs : List Char) (rest : List Nat),
    parseChars cs.length ((cs.map fun c => serNat4 c.toNat).flatten ++ rest) =
      some (cs, rest) := by
  intro cs
  induction cs with
  | nil => intro rest; rfl
  | cons c cs ih =>
    intro rest
    have hlt : c.toNat % 2 ^ 32 = c.toNat :=
      Nat.mod_eq_of_lt (Nat.lt_trans (char_toNat_lt c) (by norm_num))
    simp only [List.map_cons, List.flatten_cons, List.length_cons,
      List.append_assoc, parseChars, parseNat4_serNat4, hlt, ih,
      Char.ofNat_toNat]

theorem parseString_serString (s : String) (h : s.data.length < 2 ^ 32)
    (rest : List Nat) :
    parseString (serString s ++ rest) = some (s, rest) := by
  simp only [serString, List.append_assoc, parseString, parseNat4_serNat4,
    Nat.mod_eq_of_lt h, parseChars_ser]

theorem length_serNat4 (n : Nat) : (serNat4 n).length = 4 := rfl

theorem length_serString (s : String) :
    (serString s).length = 4 + 4 * s.data.length := by
  have key : ∀ l : List Char,
      ((l.map fun c => serNat4 c.toNat).flatten).length = 4 * l.length := by
    intro l
    induction l with
    | nil => rfl
    | cons c cs ih =>
      simp only [List.map_cons, List.flatten_cons, List.length_append,
        List.length_cons, length_serNat4, ih]
      omega
  simp only [serString, List.length_append, length_serNat4, key]

theorem parseRecord_serRecord (r : Record) (rest : List Nat)
    (h : (serRecord r).length < 2 ^ 32) :
    parseRecord (serRecord r ++ rest) = some (r, rest) := by
  obtain ⟨id, title, user, pass, url, notes⟩ := r
  simp only [serRecord, List.length_append] at h
  simp only [serRecord, List.append_assoc, parseRecord,
    parseString_serString id (by have := length_serString id; omega),
    parseString_serString title (by have := length_serString title; omega),
    parseString_serString user (by have := length_serString user; omega),
    parseString_serString pass (by have := length_serString pass; omega),
    parseString_serString url (by have := length_serString url; omega),
    parseString_serString notes (by have := length_serString notes; omega)]

theorem length_serRecord (r : Record) :
    (serRecord r).length =
      24 + 4 * (r.id.data.length + r.title.data.length + r.user.data.length +
        r.pass.data.length + r.url.data.length + r.notes.data.length) := by
  simp only [serRecord, List.length_append, length_serString]
  omega

theorem parseRecsLoop_ser : ∀ (rs : List Record) (rest : List Nat),
    (∀ r ∈ rs, (serRecord r).length < 2 ^ 32) →
    parseRecsLoop rs.length ((rs.map serRecord).flatten ++ rest) =
      some (rs, rest) := by
  intro rs
  induction rs with
  | nil => intro rest _; rfl
  | cons r rs ih =>
    intro rest hb
    have h1 : (serRecord r).length < 2 ^ 32 := hb r (by simp)
    have h2 : ∀ x ∈ rs, (serRecord x).length < 2 ^ 32 := fun x hx => hb x (by simp [hx])
    simp only [List.map_cons, List.flatten_cons, List.length_cons,
      List.append_assoc, parseRecsLoop, parseRecord_serRecord r _ h1, ih rest h2]

theorem length_serRecords (rs : List Record) :
    (serRecords rs).length = 4 + ((rs.map serRecord).flatten).length := by
  simp only [serRecords, List.length_append, length_serNat4]

theorem serRecord_length_le_flatten (rs : List Record) (r : Record)
    (hr : r ∈ rs) : (serRecord r).length ≤ ((rs.map serRecord).flatten).length := by
  induction rs with
  | nil => cases hr
  | cons x xs ih =>
    simp only [List.map_cons, List.flatten_cons, List.length_append]
    rcases List.mem_cons.mp hr with h | h
    · rw [h]; omega
    · have := ih h; omega

theorem rsLen_le_flatten (rs : List Record) :
    rs.length ≤ ((rs.map serRecord).flatten).length := by
  induction rs with
  | nil => simp
  | cons x xs ih =>
    simp only [List.map_cons, List.flatten_cons, List.length_append, List.length_cons]
    have : 1 ≤ (serRecord x).length := by rw [length_serRecord]; omega
    omega

theorem parseRecords_serRecords (rs : List Record)
    (h : (serRecords rs).length < 2 ^ 32) :
    parseRecords (serRecords rs) = some rs := by
  have hflat : ((rs.map serRecord).flatten).length < 2 ^ 32 := by
    rw [length_serRecords] at h; omega
  have hcount : rs.length < 2 ^ 32 :=
    Nat.lt_of_le_of_lt (rsLen_le_flatten rs) hflat
  have hbound : ∀ r ∈ rs, (serRecord r).length < 2 ^ 32 := fun r hr =>
    Nat.lt_of_le_of_lt (serRecord_length_le_flatten rs r hr) hflat
  have hload := parseRecsLoop_ser rs [] hbound
  rw [List.append_nil] at hload
  simp only [serRecords, parseRecords, parseNat4_serNat4,
    Nat.mod_eq_of_lt hcount, hload]
  rfl

theorem lenField_eq (L : Nat) (r1 r2 : List Nat) :
    lenField (MAGIC ++ serNat4 L ++ r1 ++ r2) = L % 2 ^ 32 := by
  show readNat4 (L / 2 ^ 24 % 256) (L / 2 ^ 16 % 256) (L / 2 ^ 8 % 256) (L % 256) =
    L % 2 ^ 32
  unfold readNat4
  omega

theorem decode_shape (pwd : String) (chk : List Nat) (hchk : chk.length = 16)
    (ct : List Nat) :
    decodeDatabase (MAGIC ++ serNat4 ct.length ++ chk ++ ct) pwd =
      (if ct.length % 2 ^ 32 ≠ ct.length then .error .SizeMismatch
      else if md5CheckText pwd ≠ chk then .error .WrongPassword
      else
        match parseRecords (aesApply pwd ct) with
        | some rs => .ok rs
        | none => .error .CorruptPayload) := by
  have hlen : (MAGIC ++ serNat4 ct.length ++ chk ++ ct).length = 24 + ct.length := by
    simp only [List.length_append, hchk, MAGIC, serNat4, List.length_cons,
      List.length_nil]
  have htake : (MAGIC ++ serNat4 ct.length ++ chk ++ ct).take 4 = MAGIC := rfl
  have hdrop8 : (MAGIC ++ serNat4 ct.length ++ chk ++ ct).drop 8 = chk ++ ct := rfl
  have htake16 : (chk ++ ct).take 16 = chk := List.take_left' hchk
  have hdrop24 : (MAGIC ++ serNat4 ct.length ++ chk ++ ct).drop 24 = ct := by
    have h1 : ((MAGIC ++ serNat4 ct.length ++ chk ++ ct).drop 8).drop 16 =
        (MAGIC ++ serNat4 ct.length ++ chk ++ ct).drop 24 :=
      List.drop_drop 16 8 _
    rw [← h1, hdrop8, List.drop_left' hchk]
  unfold decodeDatabase
  rw [if_neg (by rw [hlen]; omega)]
  rw [if_neg (by rw [htake]; simp)]
  rw [lenField_eq, hlen, hdrop8, htake16, hdrop24]
  rw [show 24 + ct.length - 24 = ct.length by omega]

/-! ## Claim theorems -/

/-- C8: when the cache slot is populated, `load_database` refreshes the
slot's last-access timestamp and returns the cached record set, with a
result independent of the file contents and of the supplied password (no
re-read, no password re-check); on a cold-load failure the cache slot
stays empty and the error is propagated. -/
theorem c8_cache_load (c : CacheRecord) (now : Nat)
    (file file2 : Option (List Nat)) (pwd pwd2 : String) :
    loadDatabase (some c) now file pwd = (.ok c.data, some ⟨c.data, now⟩)
    ∧ loadDatabase (some c) now file pwd = loadDatabase (some c) now file2 pwd2
    ∧ (∀ e, (loadDatabase none now file pwd).1 = .error e →
        (loadDatabase none now file pwd).2 = none) := by
  refine ⟨rfl, rfl, ?_⟩
  intro e h
  cases file with
  | none => rfl
  | some buf =>
    cases hd : decodeDatabase buf pwd with
    | error e2 => simp [loadDatabase, hd]
    | ok rs => simp [loadDatabase, hd] at h

/-- Witness for C8 at concrete inputs. -/
theorem c8_cache_load_witness :
    loadDatabase (some ⟨[], 0⟩) 5 none "x" = (.ok [], some ⟨[], 5⟩)
    ∧ (loadDatabase none 0 none "a").2 = none :=
  ⟨(c8_cache_load ⟨[], 0⟩ 5 none none "x" "x").1,
   (c8_cache_load ⟨[], 0⟩ 0 none none "a" "a").2.2 .ioError rfl⟩

/-- C9: removing a session id deletes its entry, removing an absent id is
a no-op, and after removal `check_session` of that id answers `false`. -/
theorem c9_remove_session (id : Nat) (sessions : List SessionItem)
    (now sessExp : Nat) :
    (checkSession id now sessExp (removeSessionId id sessions)).1 = false
    ∧ ((∀ item ∈ sessions, item.id ≠ id) →
        removeSessionId id sessions = sessions) := by
  constructor
  · have key : ∀ l : List SessionItem, (∀ item ∈ l, item.id ≠ id) →
        (checkSession id now sessExp l).1 = false := by
      intro l
      induction l with
      | nil => intro _; rfl
      | cons x xs ih =>
        intro h
        have hx : x.id ≠ id := h x (by simp)
        simp only [checkSession]
        rw [if_neg (by tauto)]
        exact ih fun item hm => h item (by simp [hm])
    apply key
    intro item hm
    have hmem := List.mem_filter.mp hm
    simpa using hmem.2
  · intro h
    apply List.filter_eq_self.mpr
    intro a ha
    simpa using h a ha

/-- Witness for C9 at concrete inputs. -/
theorem c9_remove_session_witness :
    (checkSession 1 0 7 (removeSessionId 1 [⟨2, 5⟩])).1 = false
    ∧ removeSessionId 1 [⟨2, 5⟩] = [⟨2, 5⟩] :=
  ⟨(c9_remove_session 1 [⟨2, 5⟩] 0 7).1,
   (c9_remove_session 1 [⟨2, 5⟩] 0 7).2 (by decide)⟩

/-- C10: on an authentication-required path, when the Authorization header
is absent or unparseable (`get_session_id` returns nothing) the request is
denied with the middleware 401 and the whole rate-limiter state (window
timestamp and every per-IP counter) as well as the session table are left
unchanged: the rate limiter is consulted only after a token is
extracted. -/
theorem c10_no_token_frame (path : String) (auth : Option String)
    (ip now sessExp : Nat) (lim : LimitState) (sessions : List SessionItem)
    (hreq : requireAuthentication path = true)
    (hauth : getSessionId auth = none) :
    handleModel path auth ip now sessExp lim sessions =
      (.unauthorized, lim, sessions) := by
  simp [handleModel, hreq, hauth]

/-- Witness for C10 at concrete inputs. -/
theorem c10_no_token_frame_witness :
    requireAuthentication "/api/list" = true
    ∧ getSessionId (some "Bearer abc") = none
    ∧ handleModel "/api/list" (some "Bearer abc") 7 100 30 ⟨0, fun _ => 0⟩ [] =
        (.unauthorized, ⟨0, fun _ => 0⟩, []) :=
  ⟨by decide, by decide,
   c10_no_token_frame _ _ _ _ _ _ _ (by decide) (by decide)⟩

/-- C3 (failing trace): `check_limit` does not use minute windows.  From a
fresh state, three calls at epoch second 120 from IP 1 answer true and
leave the counter at 3; the fourth call one second later — still within
minute `120 / 60 = 2`, where the claim requires `false` — resets the
window (because `now > STATIS_TIME`) and answers `true`. -/
theorem c3_limiter_per_second_reset :
    (checkLimit 120 ⟨0, fun _ => 0⟩ 1).1 = true
    ∧ (checkLimit 120 ((checkLimit 120 ⟨0, fun _ => 0⟩ 1).2) 1).1 = true
    ∧ (checkLimit 120 ((checkLimit 120 ((checkLimit 120 ⟨0, fun _ => 0⟩ 1).2) 1).2) 1).1 = true
    ∧ ((checkLimit 120 ((checkLimit 120 ((checkLimit 120 ⟨0, fun _ => 0⟩ 1).2) 1).2) 1).2).counts 1 = 3
    ∧ 121 / 60 = 120 / 60
    ∧ (checkLimit 121 ((checkLimit 120 ((checkLimit 120 ((checkLimit 120 ⟨0, fun _ => 0⟩ 1).2) 1).2) 1).2) 1).1 = true :=
  ⟨rfl, rfl, rfl, rfl, rfl, rfl⟩

/-- C4 (failing trace): with live sessions `[5, 7]` and the random stream
yielding 7 then 5, `session_id` returns the id 5, which equals a live
session id — the regenerated id is never compared against the items
already scanned, so a duplicate live id is stored. -/
theorem c4_duplicate_session_id :
    5 ∈ ([⟨5, 100⟩, ⟨7, 100⟩] : List SessionItem).map SessionItem.id
    ∧ sessionId (fun k => if k = 0 then 7 else 5) 0 10 [⟨5, 100⟩, ⟨7, 100⟩]
        = .ok (toHex16 5, [⟨5, 100⟩, ⟨7, 100⟩, ⟨5, 10⟩]) :=
  ⟨by decide, rfl⟩

/-- C1 counterexample trace: four successive login attempts from the same
source IP (1) within the same minute (epoch seconds 120 and 121, both in
minute 2), with correct credentials.  Each attempt passes the middleware
untouched (rate-limiter state unchanged — `/api/login` does not require
authentication) and each reaches the login handler; the fourth attempt is
answered with a fresh session token, not with a 401 rate-limit denial. -/
theorem c1_fourth_login_not_denied :
    handleModel "/api/login" none 1 120 10 ⟨0, fun _ => 0⟩ [] =
      (.passthrough, ⟨0, fun _ => 0⟩, [])
    ∧ handleModel "/api/login" none 1 121 10 ⟨0, fun _ => 0⟩ [] =
      (.passthrough, ⟨0, fun _ => 0⟩, [])
    ∧ loginModel (fun k => 100 + k) 120 10 []
        (some (encodeDatabase [] "a")) "db" "db" "a" =
        (.success (toHex16 100), [⟨100, 130⟩])
    ∧ loginModel (fun k => 100 + k) 120 10 [⟨100, 130⟩]
        (some (encodeDatabase [] "a")) "db" "db" "a" =
        (.success (toHex16 101), [⟨100, 130⟩, ⟨101, 130⟩])
    ∧ loginModel (fun k => 100 + k) 120 10 [⟨100, 130⟩, ⟨101, 130⟩]
        (some (encodeDatabase [] "a")) "db" "db" "a" =
        (.success (toHex16 102), [⟨100, 130⟩, ⟨101, 130⟩, ⟨102, 130⟩])
    ∧ loginModel (fun k => 100 + k) 121 10 [⟨100, 130⟩, ⟨101, 130⟩, ⟨102, 130⟩]
        (some (encodeDatabase [] "a")) "db" "db" "a" =
        (.success (toHex16 103), [⟨100, 130⟩, ⟨101, 130⟩, ⟨102, 130⟩, ⟨103, 131⟩])
    ∧ (HandleResult.passthrough ≠ HandleResult.unauthorized) :=
  ⟨rfl, rfl, rfl, rfl, rfl, rfl, by decide⟩

/-- C1 amended: requests to `/api/login` bypass the authentication
middleware entirely — `require_authentication` excludes the login path, so
every login attempt is passed to the handler with the rate-limiter state
and the session table unchanged, whatever their prior contents; the 401
rate-limit denial can only hit paths that require authentication. -/
theorem c1_login_bypasses_middleware (auth : Option String)
    (ip now sessExp : Nat) (lim : LimitState) (sessions : List SessionItem) :
    handleModel "/api/login" auth ip now sessExp lim sessions =
      (.passthrough, lim, sessions) := by
  have h : requireAuthentication "/api/login" = false := by decide
  simp [handleModel, h]

/-- C2 counterexample: at concrete inputs, a wrong username and a wrong
password produce different failure messages, so the two responses are
distinguishable. -/
theorem c2_messages_distinguishable :
    (loginModel (fun _ => 3) 0 10 [] (some (encodeDatabase [] "a"))
        "db" "alice" "a").1 = .fail "用户名错误"
    ∧ (loginModel (fun _ => 3) 0 10 [] (some (encodeDatabase [] "a"))
        "db" "db" "b").1 = .fail "密码错误"
    ∧ (LoginRes.fail "用户名错误" ≠ LoginRes.fail "密码错误") :=
  ⟨rfl, rfl, by decide⟩

/-- C2 amended: the login failure messages identify the failing field —
any request whose `user` differs from the database file stem fails with
the username message, and any request with the right user but a password
whose check value does not match fails with the password message. -/
theorem c2_field_specific_messages (rng : Nat → Nat) (now sessExp : Nat)
    (sessions : List SessionItem) (bytes : List Nat)
    (dbStem user pass : String) :
    (user ≠ dbStem →
      loginModel rng now sessExp sessions (some bytes) dbStem user pass =
        (.fail "用户名错误", sessions))
    ∧ (user = dbStem → checkPasswordFile bytes pass = .ok false →
      loginModel rng now sessExp sessions (some bytes) dbStem user pass =
        (.fail "密码错误", sessions)) := by
  constructor
  · intro h
    simp [loginModel, h]
  · intro h hp
    simp [loginModel, h, hp]

/-- Witness for the amended C2 at concrete inputs. -/
theorem c2_field_specific_messages_witness :
    loginModel (fun _ => 3) 0 10 [] (some (encodeDatabase [] "a"))
        "db" "alice" "a" = (.fail "用户名错误", [])
    ∧ loginModel (fun _ => 3) 0 10 [] (some (encodeDatabase [] "a"))
        "db" "db" "b" = (.fail "密码错误", []) :=
  ⟨(c2_field_specific_messages (fun _ => 3) 0 10 [] (encodeDatabase [] "a")
      "db" "alice" "a").1 (by decide),
   (c2_field_specific_messages (fun _ => 3) 0 10 [] (encodeDatabase [] "a")
      "db" "db" "b").2 rfl rfl⟩

/-- C5 amended: for every password and every record set whose serialized
payload is shorter than `2^32` bytes (the capacity of the format's 4-byte
length field), decode after encode with the same password returns the
original record set. -/
theorem c5_round_trip (rs : List Record) (pwd : String)
    (h : (serRecords rs).length < 2 ^ 32) :
    decodeDatabase (encodeDatabase rs pwd) pwd = .ok rs := by
  have hct : (aesApply pwd (serRecords rs)).length = (serRecords rs).length :=
    length_xorKs _ 0 _
  have hshape := decode_shape pwd (md5CheckText pwd) (by simp [md5CheckText])
    (aesApply pwd (serRecords rs))
  show decodeDatabase (MAGIC ++ serNat4 (aesApply pwd (serRecords rs)).length ++
    md5CheckText pwd ++ aesApply pwd (serRecords rs)) pwd = .ok rs
  rw [hshape]
  rw [if_neg (by rw [hct, Nat.mod_eq_of_lt h]; simp)]
  rw [if_neg (by simp)]
  rw [show aesApply pwd (aesApply pwd (serRecords rs)) = serRecords rs from
    xorKs_xorKs _ 0 _]
  rw [parseRecords_serRecords rs h]

/-- Witness for the amended C5 at concrete inputs. -/
theorem c5_round_trip_witness :
    (serRecords [(⟨"1", "t", "u", "p", "w", "n"⟩ : Record)]).length < 2 ^ 32
    ∧ decodeDatabase (encodeDatabase [(⟨"1", "t", "u", "p", "w", "n"⟩ : Record)]
        "pw") "pw" = .ok [(⟨"1", "t", "u", "p", "w", "n"⟩ : Record)] :=
  ⟨by decide,
   c5_round_trip [(⟨"1", "t", "u", "p", "w", "n"⟩ : Record)] "pw" (by decide)⟩

/-- A record set whose serialized payload reaches `2^32` bytes: one record
whose title has `2^30` characters, serialized to `2^32 + 28` bytes. -/
def bigRecs : List Record :=
  [⟨"", String.mk (List.replicate 1073741824 (Char.ofNat 97)), "", "", "", ""⟩]

theorem length_serRecords_single (r : Record) :
    (serRecords [r]).length =
      28 + 4 * (r.id.data.length + r.title.data.length + r.user.data.length +
        r.pass.data.length + r.url.data.length + r.notes.data.length) := by
  simp only [serRecords, List.map_cons, List.map_nil, List.flatten_cons,
    List.flatten_nil, List.append_nil, List.length_append, length_serNat4,
    length_serRecord]
  omega

theorem serRecords_bigRecs_length : (serRecords bigRecs).length = 2 ^ 32 + 28 := by
  have key : ∀ s : String, s.data.length = 1073741824 →
      (serRecords [(⟨"", s, "", "", "", ""⟩ : Record)]).length = 2 ^ 32 + 28 := by
    intro s hs
    rw [length_serRecords_single]
    show 28 + 4 * ("".data.length + s.data.length + "".data.length +
      "".data.length + "".data.length + "".data.length) = 2 ^ 32 + 28
    rw [hs]
    show 28 + 4 * (0 + 1073741824 + 0 + 0 + 0 + 0) = 2 ^ 32 + 28
    norm_num
  have ht : (String.mk (List.replicate 1073741824 (Char.ofNat 97))).data.length
      = 1073741824 := by
    show (List.replicate 1073741824 (Char.ofNat 97)).length = 1073741824
    exact List.length_replicate 1073741824 (Char.ofNat 97)
  exact key (String.mk (List.replicate 1073741824 (Char.ofNat 97))) ht

/-- C5 counterexample: the 4-byte length field truncates the payload
length modulo `2^32`, so for a record set serializing to `2^32 + 28`
bytes the encoded file stores the length 28, and decoding it with the
same password fails with the size-mismatch error instead of returning the
original record set. -/
theorem c5_big_payload_fails :
    decodeDatabase (encodeDatabase bigRecs "p") "p" = .error .SizeMismatch
    ∧ decodeDatabase (encodeDatabase bigRecs "p") "p" ≠ .ok bigRecs := by
  have hct : (aesApply "p" (serRecords bigRecs)).length = 2 ^ 32 + 28 :=
    Eq.trans (length_xorKs (ksByte "p") 0 (serRecords bigRecs))
      serRecords_bigRecs_length
  have hshape := decode_shape "p" (md5CheckText "p") (by simp [md5CheckText])
    (aesApply "p" (serRecords bigRecs))
  have hmain : decodeDatabase (encodeDatabase bigRecs "p") "p" =
      .error .SizeMismatch := by
    show decodeDatabase (MAGIC ++ serNat4 (aesApply "p" (serRecords bigRecs)).length ++
      md5CheckText "p" ++ aesApply "p" (serRecords bigRecs)) "p" = .error .SizeMismatch
    rw [hshape, hct]
    rw [if_pos (by decide)]
  exact ⟨hmain, by rw [hmain]; simp⟩

/-- C7 amended: for distinct passwords, decoding under the wrong password
yields the wrong-password error whenever the payload fits the length
field (`< 2^32` bytes), and it never yields a successful decode for any
record set. -/
theorem c7_wrong_key (rs : List Record) (p1 p2 : String) (hp : p1 ≠ p2) :
    ((serRecords rs).length < 2 ^ 32 →
      decodeDatabase (encodeDatabase rs p1) p2 = .error .WrongPassword)
    ∧ ∀ out, decodeDatabase (encodeDatabase rs p1) p2 ≠ .ok out := by
  have hmd5 : md5CheckText p2 ≠ md5CheckText p1 := fun h =>
    hp (md5CheckText_inj p2 p1 h).symm
  have hct : (aesApply p1 (serRecords rs)).length = (serRecords rs).length :=
    length_xorKs _ 0 _
  have hshape := decode_shape p2 (md5CheckText p1) (by simp [md5CheckText])
    (aesApply p1 (serRecords rs))
  have hbuf : decodeDatabase (encodeDatabase rs p1) p2 =
      (if (aesApply p1 (serRecords rs)).length % 2 ^ 32 ≠
          (aesApply p1 (serRecords rs)).length then .error .SizeMismatch
      else if md5CheckText p2 ≠ md5CheckText p1 then .error .WrongPassword
      else
        match parseRecords (aesApply p2 (aesApply p1 (serRecords rs))) with
        | some r2 => .ok r2
        | none => .error .CorruptPayload) := hshape
  constructor
  · intro h
    rw [hbuf]
    rw [if_neg (by rw [hct, Nat.mod_eq_of_lt h]; simp)]
    rw [if_pos hmd5]
  · intro out
    rw [hbuf]
    by_cases hc : (aesApply p1 (serRecords rs)).length % 2 ^ 32 ≠
        (aesApply p1 (serRecords rs)).length
    · rw [if_pos hc]; simp
    · rw [if_neg hc, if_pos hmd5]; simp

/-- Witness for the amended C7 at concrete inputs. -/
theorem c7_wrong_key_witness :
    decodeDatabase (encodeDatabase [] "a") "b" = .error .WrongPassword
    ∧ decodeDatabase (encodeDatabase [] "a") "b" ≠ .ok [] :=
  ⟨(c7_wrong_key [] "a" "b" (by decide)).1 (by decide),
   (c7_wrong_key [] "a" "b" (by decide)).2 []⟩

/-- C7 counterexample: for the oversized record set the wrong-password
decode fails with the size-mismatch error — a failure, but not the
wrong-password error class the claim requires. -/
theorem c7_big_payload_error_class :
    ("p" : String) ≠ "q"
    ∧ decodeDatabase (encodeDatabase bigRecs "p") "q" = .error .SizeMismatch
    ∧ (DbError.SizeMismatch ≠ DbError.WrongPassword) := by
  have hct : (aesApply "p" (serRecords bigRecs)).length = 2 ^ 32 + 28 :=
    Eq.trans (length_xorKs (ksByte "p") 0 (serRecords bigRecs))
      serRecords_bigRecs_length
  have hshape := decode_shape "q" (md5CheckText "p") (by simp [md5CheckText])
    (aesApply "p" (serRecords bigRecs))
  refine ⟨by decide, ?_, by decide⟩
  show decodeDatabase (MAGIC ++ serNat4 (aesApply "p" (serRecords bigRecs)).length ++
    md5CheckText "p" ++ aesApply "p" (serRecords bigRecs)) "q" = .error .SizeMismatch
  rw [hshape, hct]
  rw [if_pos (by decide)]

/-- C6: the decode validations run in the claimed order with distinct
error classes — a size error exactly on buffers shorter than 24 bytes; a
format error exactly on long-enough buffers with a wrong magic; a
size-mismatch error exactly when magic is right but the length field
disagrees with `len(bytes) - 24`; a wrong-password error exactly when the
structural checks pass but the stored 16-byte check value differs from
`check_value(password)` (a condition on the header only, so no
decryption is attempted); and only when every check passes is the
ciphertext decrypted and parsed, a parse failure being the corrupt
payload error. -/
theorem c6_decode_validation_order (buf : List Nat) (pwd : String) :
    (decodeDatabase buf pwd = .error .TooSmall ↔ buf.length < 24)
    ∧ (decodeDatabase buf pwd = .error .BadFormat ↔
        24 ≤ buf.length ∧ buf.take 4 ≠ MAGIC)
    ∧ (decodeDatabase buf pwd = .error .SizeMismatch ↔
        24 ≤ buf.length ∧ buf.take 4 = MAGIC ∧ lenField buf ≠ buf.length - 24)
    ∧ (decodeDatabase buf pwd = .error .WrongPassword ↔
        24 ≤ buf.length ∧ buf.take 4 = MAGIC ∧ lenField buf = buf.length - 24 ∧
        md5CheckText pwd ≠ (buf.drop 8).take 16)
    ∧ (24 ≤ buf.length → buf.take 4 = MAGIC → lenField buf = buf.length - 24 →
        md5CheckText pwd = (buf.drop 8).take 16 →
        decodeDatabase buf pwd =
          match parseRecords (aesApply pwd (buf.drop 24)) with
          | some rs => .ok rs
          | none => .error .CorruptPayload) := by
  unfold decodeDatabase
  by_cases h1 : buf.length < 24
  · rw [if_pos h1]
    refine ⟨by simp [h1], ?_, ?_, ?_, ?_⟩
    · constructor
      · intro h; simp at h
      · intro h; omega
    · constructor
      · intro h; simp at h
      · intro h; omega
    · constructor
      · intro h; simp at h
      · intro h; omega
    · intro h; omega
  · rw [if_neg h1]
    by_cases h2 : buf.take 4 = MAGIC
    · rw [if_neg (by simp [h2])]
      by_cases h3 : lenField buf = buf.length - 24
      · rw [if_neg (by simp [h3])]
        by_cases h4 : md5CheckText pwd = (buf.drop 8).take 16
        · rw [if_neg (by simp [h4])]
          cases hp : parseRecords (aesApply pwd (buf.drop 24)) with
          | some rs =>
            refine ⟨by simp [h1], by simp [h2], by simp [h3], by simp [h4], ?_⟩
            intro _ _ _ _
            rfl
          | none =>
            refine ⟨by simp [h1], by simp [h2], by simp [h3], by simp [h4], ?_⟩
            intro _ _ _ _
            rfl
        · rw [if_pos h4]
          refine ⟨by simp [h1], ?_, ?_, ?_, ?_⟩
          · constructor
            · intro h; simp at h
            · intro h; exact absurd h2 h.2
          · constructor
            · intro h; simp at h
            · intro h; exact absurd h3 h.2.2
          · constructor
            · intro _; exact ⟨by omega, h2, h3, h4⟩
            · intro _; rfl
          · intro _ _ _ hmd
            exact absurd hmd h4
      · rw [if_pos h3]
        refine ⟨by simp [h1], ?_, ?_, ?_, ?_⟩
        · constructor
          · intro h; simp at h
          · intro h; exact absurd h.2 (by simp [h2])
        · constructor
          · intro _; exact ⟨by omega, h2, h3⟩
          · intro _; rfl
        · constructor
          · intro h; simp at h
          · intro h; exact absurd h.2.2.1 h3
        · intro _ _ hlf _
          exact absurd hlf h3
    · rw [if_pos h2]
      refine ⟨by simp [h1], ?_, ?_, ?_, ?_⟩
      · constructor
        · intro _; exact ⟨by omega, h2⟩
        · intro _; rfl
      · constructor
        · intro h; simp at h
        · intro h; exact absurd h.2.1 h2
      · constructor
        · intro h; simp at h
        · intro h; exact absurd h.2.1 h2
      · intro _ hmg _ _
        exact absurd hmg h2

/-- Witness for C6 at concrete inputs. -/
theorem c6_decode_validation_order_witness :
    decodeDatabase [] "a" = .error .TooSmall
    ∧ decodeDatabase (encodeDatabase [] "a") "a" =
        (match parseRecords (aesApply "a" ((encodeDatabase [] "a").drop 24)) with
          | some rs => .ok rs
          | none => .error .CorruptPayload) :=
  ⟨(c6_decode_validation_order [] "a").1.mpr (by decide),
   (c6_decode_validation_order (encodeDatabase [] "a") "a").2.2.2.2
     (by decide) (by decide) (by decide) (by decide)⟩

end Accinfo
